import Mathlib

/-!
Verification of the Sphinx documentation build configuration
(`doc/src/sphinx/conf.py`) of the `util` repository.

The configuration script is embedded shallowly: its module-level
assignments become fields of a `SphinxConfig` record, the
`sbt_versions` collaborator module (present in the repository under
`utils/` but not included in the snapshot) is modelled from the spec,
and the theme-availability try/except block becomes an explicit
function of a Boolean `themeAvailable` input.  Evaluation of the whole
script is `evalConf`, returning the final configuration together with
the list of diagnostic lines printed, or a `ResolutionError` when the
version resolver fails.
-/

/-- Modelled from the spec: error raised by the `sbt_versions` collaborator
module (not included in the repository snapshot) when the build descriptor
file is missing or contains no recognizable release pattern. -/
inductive ResolutionError where
  | fileMissing
  | noReleasePattern
deriving Repr, DecidableEq

/-- Modelled from the spec: the build descriptor file
(`project/Build.scala`) as seen by the version resolver.  It is either
missing, or present and declaring a recognizable release string, or
present without any recognizable release pattern (the exact
release-declaration format is owned by the collaborator module and is
abstracted away here). -/
inductive BuildDescriptor where
  | missing
  | present (releaseDecl : Option String)
deriving Repr, DecidableEq

/-- Modelled from the spec: `sbt_versions.find_release` extracts the
declared release identifier from the build descriptor, failing with a
`ResolutionError` when the file is missing or no release pattern is
found. -/
def find_release : BuildDescriptor → Except ResolutionError String
  | .missing => .error .fileMissing
  | .present none => .error .noReleasePattern
  | .present (some r) => .ok r

/-- Modelled from the spec: `sbt_versions.release_to_version` strips the
trailing pre-release/build qualifier segment (separated by the delimiter
`-`) from a release string and returns the remaining prefix. -/
def release_to_version (r : String) : String :=
  String.mk (r.toList.takeWhile (fun c => c != '-'))

/-- Decimal rendering of a natural number, one character per digit;
embeds the decimal formatting that the interpreter applies to the year
in the copyright string of `conf.py`. -/
def digitChars (n : Nat) : List Char :=
  if _h : n < 10 then [Nat.digitChar n]
  else digitChars (n / 10) ++ [Nat.digitChar (n % 10)]
decreasing_by
  exact Nat.div_lt_self (by omega) (by omega)

/-- Decimal rendering of a natural number as a string. -/
def decimalRepr (n : Nat) : String :=
  String.mk (digitChars n)

/-- The configuration mapping produced by evaluating `conf.py`: one
field per configuration key assigned by the script. -/
structure SphinxConfig where
  highlight_language : String
  extensions : List String
  templates_path : List String
  source_suffix : String
  master_doc : String
  html_theme_path : List String
  html_theme : String
  html_short_title : String
  html_static_path : List String
  html_sidebars : List (String × List String)
  html_favicon : String
  html_theme_options : List (String × Option String)
  project : String
  copyright : String
  htmlhelp_basename : String
  release : String
  version : String
  pygments_style : String
deriving Repr, DecidableEq

/-- The configuration state reached by `conf.py` just before the theme
try/except block, given the resolved release string and the current
year: every assignment from `highlight_language = 'scala'` down to
`pygments_style = 'flask_theme_support.FlaskyStyle'`. -/
def baseConfig (r : String) (year : Nat) : SphinxConfig where
  highlight_language := "scala"
  extensions := ["sphinx.ext.extlinks"]
  templates_path := ["_templates"]
  source_suffix := ".rst"
  master_doc := "index"
  html_theme_path := ["_themes"]
  html_theme := "flask"
  html_short_title := "Util"
  html_static_path := ["_static"]
  html_sidebars :=
    [("index", ["sidebarintro.html", "searchbox.html"]),
     ("**", ["sidebarintro.html", "localtoc.html", "relations.html",
             "searchbox.html"])]
  html_favicon := "_static/favicon.ico"
  html_theme_options := [("index_logo", none)]
  project := "Util"
  copyright := decimalRepr year ++ " Twitter, Inc"
  htmlhelp_basename := "util"
  release := r
  version := release_to_version r
  pygments_style := "flask_theme_support.FlaskyStyle"

/-- The diagnostic lines printed by the `except ImportError` branch of
the theme fallback in `conf.py`. -/
def fallbackWarnings : List String :=
  [String.mk (List.replicate 74 '-'),
   "Warning: Flask themes unavailable.  Building with default theme",
   "If you want the Flask themes, run this command and build again:",
   "",
   "  git submodule update --init",
   String.mk (List.replicate 74 '-')]

/-- The theme try/except block of `conf.py`: when
`__import__('flask_theme_support')` succeeds the configuration is left
unchanged and nothing is printed; when it raises `ImportError` the
warning lines are printed and `pygments_style`, `html_theme` and
`html_theme_options` are overwritten with the fallback values. -/
def applyThemeGuard (themeAvailable : Bool) (c : SphinxConfig) :
    SphinxConfig × List String :=
  if themeAvailable then (c, [])
  else
    ({ c with
        pygments_style := "tango"
        html_theme := "default"
        html_theme_options := [] },
     fallbackWarnings)

/-- Top-to-bottom evaluation of `conf.py`, parameterised by the build
descriptor contents, the availability of the `flask_theme_support`
package, and the current calendar year.  A `ResolutionError` from
`find_release` propagates and aborts the evaluation; otherwise the
final configuration and the printed diagnostic lines are returned. -/
def evalConf (d : BuildDescriptor) (themeAvailable : Bool) (year : Nat) :
    Except ResolutionError (SphinxConfig × List String) :=
  match find_release d with
  | .error e => .error e
  | .ok r => .ok (applyThemeGuard themeAvailable (baseConfig r year))

/-! ### Helper lemmas -/

theorem digitChar_inj_fin : ∀ a b : Fin 10,
    Nat.digitChar a.val = Nat.digitChar b.val → a = b := by decide

theorem digitChar_inj_lt {a b : Nat} (ha : a < 10) (hb : b < 10)
    (h : Nat.digitChar a = Nat.digitChar b) : a = b := by
  have := digitChar_inj_fin ⟨a, ha⟩ ⟨b, hb⟩ h
  exact congrArg Fin.val this

theorem digitChars_lt {n : Nat} (h : n < 10) :
    digitChars n = [Nat.digitChar n] := by
  rw [digitChars]
  exact dif_pos h

theorem digitChars_ge {n : Nat} (h : ¬ n < 10) :
    digitChars n = digitChars (n / 10) ++ [Nat.digitChar (n % 10)] := by
  rw [digitChars]
  exact dif_neg h

theorem digitChars_ne_nil (n : Nat) : digitChars n ≠ [] := by
  by_cases h : n < 10
  · rw [digitChars_lt h]
    simp
  · rw [digitChars_ge h]
    simp

theorem digitChars_inj : ∀ m n : Nat, digitChars m = digitChars n → m = n := by
  intro m
  induction m using Nat.strong_induction_on with
  | _ m ih =>
    intro n h
    by_cases hm : m < 10 <;> by_cases hn : n < 10
    · rw [digitChars_lt hm, digitChars_lt hn] at h
      exact digitChar_inj_lt hm hn (List.singleton_inj.mp h)
    · rw [digitChars_lt hm, digitChars_ge hn] at h
      have hlen := congrArg List.length h
      simp at hlen
      exact absurd hlen (digitChars_ne_nil (n / 10))
    · rw [digitChars_ge hm, digitChars_lt hn] at h
      have hlen := congrArg List.length h
      simp at hlen
      exact absurd hlen (digitChars_ne_nil (m / 10))
    · rw [digitChars_ge hm, digitChars_ge hn] at h
      have hpair := List.append_inj' h (by simp)
      have hdiv : m / 10 = n / 10 :=
        ih (m / 10) (Nat.div_lt_self (by omega) (by omega)) (n / 10) hpair.1
      have hmod : m % 10 = n % 10 :=
        digitChar_inj_lt (Nat.mod_lt _ (by omega)) (Nat.mod_lt _ (by omega))
          (List.singleton_inj.mp hpair.2)
      have h1 := Nat.div_add_mod m 10
      have h2 := Nat.div_add_mod n 10
      omega

theorem decimalRepr_inj {m n : Nat} (h : decimalRepr m = decimalRepr n) :
    m = n := by
  apply digitChars_inj
  exact congrArg String.data h

theorem string_data_append (a b : String) :
    (a ++ b).data = a.data ++ b.data := rfl

theorem string_append_right_cancel {a b c : String} (h : a ++ c = b ++ c) :
    a = b := by
  have hd : a.data ++ c.data = b.data ++ c.data := by
    rw [← string_data_append, ← string_data_append, h]
  exact congrArg String.mk (List.append_cancel_right hd)

/-- Agreement of two configurations on every field other than the three
theme fields that the fallback branch of `conf.py` overwrites. -/
def agreesOffThemeFields (c c' : SphinxConfig) : Prop :=
  c.highlight_language = c'.highlight_language ∧
  c.extensions = c'.extensions ∧
  c.templates_path = c'.templates_path ∧
  c.source_suffix = c'.source_suffix ∧
  c.master_doc = c'.master_doc ∧
  c.html_theme_path = c'.html_theme_path ∧
  c.html_short_title = c'.html_short_title ∧
  c.html_static_path = c'.html_static_path ∧
  c.html_sidebars = c'.html_sidebars ∧
  c.html_favicon = c'.html_favicon ∧
  c.project = c'.project ∧
  c.copyright = c'.copyright ∧
  c.htmlhelp_basename = c'.htmlhelp_basename ∧
  c.release = c'.release ∧
  c.version = c'.version

/-! ### Claim theorems -/

/-- C1: if the enhanced theme package cannot be loaded, the resulting
theme configuration equals the fallback variant exactly: default theme
`'default'`, empty theme options, and default syntax-highlighting style
`'tango'`. -/
theorem fallback_theme_config_eq (d : BuildDescriptor) (y : Nat)
    (cw : SphinxConfig × List String) (h : evalConf d false y = .ok cw) :
    cw.1.html_theme = "default" ∧ cw.1.html_theme_options = [] ∧
    cw.1.pygments_style = "tango" := by
  match d with
  | .missing => exact Except.noConfusion h
  | .present none => exact Except.noConfusion h
  | .present (some r) =>
    injection h with h
    subst h
    exact ⟨rfl, rfl, rfl⟩

theorem fallback_theme_config_eq_witness :
    evalConf (.present (some "6.3.0")) false 2025 =
      .ok (applyThemeGuard false (baseConfig "6.3.0" 2025)) ∧
    ((applyThemeGuard false (baseConfig "6.3.0" 2025)).1.html_theme = "default" ∧
     (applyThemeGuard false (baseConfig "6.3.0" 2025)).1.html_theme_options = [] ∧
     (applyThemeGuard false (baseConfig "6.3.0" 2025)).1.pygments_style = "tango") :=
  ⟨rfl, fallback_theme_config_eq (.present (some "6.3.0")) 2025 _ rfl⟩

/-- C2: the theme import failure is caught and fully handled locally:
whether or not the configuration evaluation completes is determined
solely by the version resolver and is the same for every outcome of the
theme import attempt, so the theme load failure is never build-fatal. -/
theorem theme_load_never_fatal (d : BuildDescriptor) (a : Bool) (y : Nat) :
    (evalConf d a y).toOption.isSome = (find_release d).toOption.isSome ∧
    ∀ a' : Bool,
      (evalConf d a y).toOption.isSome = (evalConf d a' y).toOption.isSome := by
  match d with
  | .missing => exact ⟨rfl, fun _ => rfl⟩
  | .present none => exact ⟨rfl, fun _ => rfl⟩
  | .present (some r) => exact ⟨rfl, fun _ => rfl⟩

/-- C3: a missing build descriptor file, or one with no recognizable
release pattern, makes the version resolver raise a `ResolutionError`
that no handler catches: the configuration evaluation aborts with that
error, for every theme availability and year. -/
theorem resolution_error_aborts (a : Bool) (y : Nat) :
    evalConf .missing a y = .error .fileMissing ∧
    evalConf (.present none) a y = .error .noReleasePattern :=
  ⟨rfl, rfl⟩

/-- C4: the canonicalization function `release_to_version` is
idempotent: applying it twice gives the same result as applying it
once. -/
theorem release_to_version_idem (x : String) :
    release_to_version (release_to_version x) = release_to_version x := by
  have hmk : (String.mk (x.toList.takeWhile (fun c => c != '-'))).toList
      = x.toList.takeWhile (fun c => c != '-') := rfl
  unfold release_to_version
  rw [hmk, List.takeWhile_idem]

/-- C5: if the enhanced theme package loads successfully, the theme
configuration equals the enhanced variant: theme `'flask'`, style
`'flask_theme_support.FlaskyStyle'`, and the enhanced theme options
retained. -/
theorem enhanced_theme_config_eq (d : BuildDescriptor) (y : Nat)
    (cw : SphinxConfig × List String) (h : evalConf d true y = .ok cw) :
    cw.1.html_theme = "flask" ∧
    cw.1.pygments_style = "flask_theme_support.FlaskyStyle" ∧
    cw.1.html_theme_options = [("index_logo", none)] := by
  match d with
  | .missing => exact Except.noConfusion h
  | .present none => exact Except.noConfusion h
  | .present (some r) =>
    injection h with h
    subst h
    exact ⟨rfl, rfl, rfl⟩

theorem enhanced_theme_config_eq_witness :
    evalConf (.present (some "6.3.0")) true 2025 =
      .ok (applyThemeGuard true (baseConfig "6.3.0" 2025)) ∧
    ((applyThemeGuard true (baseConfig "6.3.0" 2025)).1.html_theme = "flask" ∧
     (applyThemeGuard true (baseConfig "6.3.0" 2025)).1.pygments_style =
       "flask_theme_support.FlaskyStyle" ∧
     (applyThemeGuard true (baseConfig "6.3.0" 2025)).1.html_theme_options =
       [("index_logo", none)]) :=
  ⟨rfl, enhanced_theme_config_eq (.present (some "6.3.0")) 2025 _ rfl⟩

/-- C6: whenever the version resolver produces a release string `r`, the
evaluation completes and the configuration holds `release = r` and
`version = release_to_version r`, for every theme availability and
year. -/
theorem resolver_feeds_release_version (d : BuildDescriptor) (a : Bool)
    (y : Nat) (r : String) (h : find_release d = .ok r) :
    ∃ cw, evalConf d a y = .ok cw ∧ cw.1.release = r ∧
      cw.1.version = release_to_version r := by
  match d with
  | .missing => exact Except.noConfusion h
  | .present none => exact Except.noConfusion h
  | .present (some r') =>
    injection h with h
    subst h
    cases a
    · exact ⟨applyThemeGuard false (baseConfig r' y), rfl, rfl, rfl⟩
    · exact ⟨applyThemeGuard true (baseConfig r' y), rfl, rfl, rfl⟩

theorem resolver_feeds_release_version_witness :
    find_release (.present (some "6.3.0-SNAPSHOT")) = .ok "6.3.0-SNAPSHOT" ∧
    ∃ cw, evalConf (.present (some "6.3.0-SNAPSHOT")) true 2025 = .ok cw ∧
      cw.1.release = "6.3.0-SNAPSHOT" ∧
      cw.1.version = release_to_version "6.3.0-SNAPSHOT" :=
  ⟨rfl, resolver_feeds_release_version (.present (some "6.3.0-SNAPSHOT"))
    true 2025 "6.3.0-SNAPSHOT" rfl⟩

/-- C7: on fallback the diagnostic output is exactly the warning block,
which includes the line explaining how to obtain the enhanced theme;
on success no diagnostic line is printed at all. -/
theorem fallback_warning_iff (d : BuildDescriptor) (y : Nat)
    (cw cw' : SphinxConfig × List String)
    (hf : evalConf d false y = .ok cw) (hs : evalConf d true y = .ok cw') :
    cw.2 = fallbackWarnings ∧
    "If you want the Flask themes, run this command and build again:" ∈ cw.2 ∧
    "  git submodule update --init" ∈ cw.2 ∧
    cw'.2 = ([] : List String) := by
  match d with
  | .missing => exact Except.noConfusion hf
  | .present none => exact Except.noConfusion hf
  | .present (some r) =>
    injection hf with hf
    injection hs with hs
    subst hf
    subst hs
    refine ⟨rfl, ?_, ?_, rfl⟩
    · simp [applyThemeGuard, fallbackWarnings]
    · simp [applyThemeGuard, fallbackWarnings]

theorem fallback_warning_iff_witness :
    evalConf (.present (some "6.3.0")) false 2025 =
      .ok (applyThemeGuard false (baseConfig "6.3.0" 2025)) ∧
    evalConf (.present (some "6.3.0")) true 2025 =
      .ok (applyThemeGuard true (baseConfig "6.3.0" 2025)) ∧
    ((applyThemeGuard false (baseConfig "6.3.0" 2025)).2 = fallbackWarnings ∧
     "If you want the Flask themes, run this command and build again:" ∈
       (applyThemeGuard false (baseConfig "6.3.0" 2025)).2 ∧
     "  git submodule update --init" ∈
       (applyThemeGuard false (baseConfig "6.3.0" 2025)).2 ∧
     (applyThemeGuard true (baseConfig "6.3.0" 2025)).2 = ([] : List String)) :=
  ⟨rfl, rfl, fallback_warning_iff (.present (some "6.3.0")) 2025 _ _ rfl rfl⟩

/-- C8: the version resolver and the theme availability guard are
independent: the `release`/`version` pair is the same for every theme
availability, and the three theme fields are the same for every
descriptor (over all runs that complete), so no data flows between the
two components. -/
theorem components_independent :
    (∀ (d : BuildDescriptor) (y : Nat) (a a' : Bool),
       (evalConf d a y).toOption.map (fun cw => (cw.1.release, cw.1.version)) =
       (evalConf d a' y).toOption.map
         (fun cw => (cw.1.release, cw.1.version))) ∧
    (∀ (d d' : BuildDescriptor) (a : Bool) (y y' : Nat)
       (cw cw' : SphinxConfig × List String),
       evalConf d a y = .ok cw → evalConf d' a y' = .ok cw' →
       cw.1.html_theme = cw'.1.html_theme ∧
       cw.1.html_theme_options = cw'.1.html_theme_options ∧
       cw.1.pygments_style = cw'.1.pygments_style) := by
  constructor
  · intro d y a a'
    match d with
    | .missing => rfl
    | .present none => rfl
    | .present (some r) => cases a <;> cases a' <;> rfl
  · intro d d' a y y' cw cw' h h'
    match d, d' with
    | .missing, _ => exact Except.noConfusion h
    | .present none, _ => exact Except.noConfusion h
    | .present (some r), .missing => exact Except.noConfusion h'
    | .present (some r), .present none => exact Except.noConfusion h'
    | .present (some r), .present (some r') =>
      injection h with h
      injection h' with h'
      subst h
      subst h'
      cases a
      · exact ⟨rfl, rfl, rfl⟩
      · exact ⟨rfl, rfl, rfl⟩

theorem components_independent_witness :
    evalConf (.present (some "6.3.0")) true 2025 =
      .ok (applyThemeGuard true (baseConfig "6.3.0" 2025)) ∧
    evalConf (.present (some "7.0.0-SNAPSHOT")) true 2026 =
      .ok (applyThemeGuard true (baseConfig "7.0.0-SNAPSHOT" 2026)) ∧
    ((applyThemeGuard true (baseConfig "6.3.0" 2025)).1.html_theme =
       (applyThemeGuard true (baseConfig "7.0.0-SNAPSHOT" 2026)).1.html_theme ∧
     (applyThemeGuard true (baseConfig "6.3.0" 2025)).1.html_theme_options =
       (applyThemeGuard true
         (baseConfig "7.0.0-SNAPSHOT" 2026)).1.html_theme_options ∧
     (applyThemeGuard true (baseConfig "6.3.0" 2025)).1.pygments_style =
       (applyThemeGuard true
         (baseConfig "7.0.0-SNAPSHOT" 2026)).1.pygments_style) :=
  ⟨rfl, rfl, components_independent.2 (.present (some "6.3.0"))
    (.present (some "7.0.0-SNAPSHOT")) true 2025 2026 _ _ rfl rfl⟩

/-- C9: the fallback branch modifies only `pygments_style`, `html_theme`
and `html_theme_options`: every other configuration field is the same in
the fallback run as in the enhanced run over the same descriptor and
year, and `html_theme_path` remains `['_themes']` in both runs. -/
theorem fallback_frame (d : BuildDescriptor) (y : Nat)
    (cw cw' : SphinxConfig × List String)
    (he : evalConf d true y = .ok cw) (hf : evalConf d false y = .ok cw') :
    agreesOffThemeFields cw'.1 cw.1 ∧
    cw.1.html_theme_path = ["_themes"] ∧
    cw'.1.html_theme_path = ["_themes"] := by
  match d with
  | .missing => exact Except.noConfusion he
  | .present none => exact Except.noConfusion he
  | .present (some r) =>
    injection he with he
    injection hf with hf
    subst he
    subst hf
    exact ⟨⟨rfl, rfl, rfl, rfl, rfl, rfl, rfl, rfl, rfl, rfl, rfl, rfl, rfl,
      rfl, rfl⟩, rfl, rfl⟩

theorem fallback_frame_witness :
    evalConf (.present (some "6.3.0")) true 2025 =
      .ok (applyThemeGuard true (baseConfig "6.3.0" 2025)) ∧
    evalConf (.present (some "6.3.0")) false 2025 =
      .ok (applyThemeGuard false (baseConfig "6.3.0" 2025)) ∧
    (agreesOffThemeFields (applyThemeGuard false (baseConfig "6.3.0" 2025)).1
       (applyThemeGuard true (baseConfig "6.3.0" 2025)).1 ∧
     (applyThemeGuard true (baseConfig "6.3.0" 2025)).1.html_theme_path =
       ["_themes"] ∧
     (applyThemeGuard false (baseConfig "6.3.0" 2025)).1.html_theme_path =
       ["_themes"]) :=
  ⟨rfl, rfl, fallback_frame (.present (some "6.3.0")) 2025 _ _ rfl rfl⟩

/-- C10: the copyright string is derived from the build-time clock: it
equals the current year rendered in decimal followed by
`' Twitter, Inc'`, and two runs that complete in different calendar
years produce different copyright values, so the configuration is not a
pure function of the descriptor and theme availability alone. -/
theorem copyright_from_clock :
    (∀ (d : BuildDescriptor) (a : Bool) (y : Nat)
       (cw : SphinxConfig × List String),
       evalConf d a y = .ok cw →
       cw.1.copyright = decimalRepr y ++ " Twitter, Inc") ∧
    (∀ (d : BuildDescriptor) (a : Bool) (y y' : Nat)
       (cw cw' : SphinxConfig × List String),
       evalConf d a y = .ok cw → evalConf d a y' = .ok cw' → y ≠ y' →
       cw.1.copyright ≠ cw'.1.copyright) := by
  have part1 : ∀ (d : BuildDescriptor) (a : Bool) (y : Nat)
      (cw : SphinxConfig × List String),
      evalConf d a y = .ok cw →
      cw.1.copyright = decimalRepr y ++ " Twitter, Inc" := by
    intro d a y cw h
    match d with
    | .missing => exact Except.noConfusion h
    | .present none => exact Except.noConfusion h
    | .present (some r) =>
      injection h with h
      subst h
      cases a
      · rfl
      · rfl
  refine ⟨part1, ?_⟩
  intro d a y y' cw cw' h h' hne heq
  rw [part1 d a y cw h, part1 d a y' cw' h'] at heq
  exact hne (decimalRepr_inj (string_append_right_cancel heq))

theorem copyright_from_clock_witness :
    evalConf (.present (some "6.3.0")) true 2025 =
      .ok (applyThemeGuard true (baseConfig "6.3.0" 2025)) ∧
    evalConf (.present (some "6.3.0")) true 2026 =
      .ok (applyThemeGuard true (baseConfig "6.3.0" 2026)) ∧
    (2025 : Nat) ≠ 2026 ∧
    (applyThemeGuard true (baseConfig "6.3.0" 2025)).1.copyright =
      decimalRepr 2025 ++ " Twitter, Inc" ∧
    (applyThemeGuard true (baseConfig "6.3.0" 2025)).1.copyright ≠
      (applyThemeGuard true (baseConfig "6.3.0" 2026)).1.copyright :=
  ⟨rfl, rfl, by decide,
   copyright_from_clock.1 (.present (some "6.3.0")) true 2025 _ rfl,
   copyright_from_clock.2 (.present (some "6.3.0")) true 2025 2026 _ _ rfl rfl
     (by decide)⟩
